import Mathlib

/-!
Shallow embedding of the incremental diagnostics log feed
(`DiagnosticsFeed` in `src/diagterm/collectors.py`) together with proofs
of the specified properties.

The external world (the `journalctl` / `dmesg` subprocess invocations) is
modelled by passing each poll the outcome of the corresponding invocation:
`none` models an invocation that raised (non-zero exit, timeout, missing
tool — `ToolInvocationFailure`), `some raw` models a successful invocation
whose captured text split into lines (`out.splitlines()`) is `raw`.
Tool discovery (`_which`) is modelled by injecting the two lookup results
into the constructor.
-/

namespace Diagterm

/-- The two concrete backends the feed can select (`self._backend` holds
`"journal"`, `"dmesg"` or `None` in the source). -/
inductive Backend
  | journal
  | dmesg
deriving DecidableEq

/-- State of a `DiagnosticsFeed` instance: the mutable attributes set in
`DiagnosticsFeed.__init__`. -/
structure DiagnosticsFeed where
  limit : Nat
  _buffer : List String
  _backend : Option Backend
  _journalctl : Option String
  _dmesg : Option String
  _cursor : Option String
  _journal_tail : Option String
  _dmesg_tail : Option String

/-- `DiagnosticsFeed.__init__`: `self.limit = max(1, int(limit))`, empty
buffer, no backend, no cursor, no tail markers; the `_which` results are
injected. -/
def DiagnosticsFeed.init (limit : Nat) (journalctl dmesg : Option String) :
    DiagnosticsFeed where
  limit := max 1 limit
  _buffer := []
  _backend := none
  _journalctl := journalctl
  _dmesg := dmesg
  _cursor := none
  _journal_tail := none
  _dmesg_tail := none

/-- `DiagnosticsFeed.snapshot`: the current buffer, oldest-first. -/
def DiagnosticsFeed.snapshot (st : DiagnosticsFeed) : List String :=
  st._buffer

/-- Python `str.rstrip()` (strip trailing whitespace), computed on the
character list so that it evaluates inside the kernel. -/
def pyRstrip (s : String) : String :=
  ⟨(s.data.reverse.dropWhile Char.isWhitespace).reverse⟩

/-- Python `str.strip()` (strip leading and trailing whitespace). -/
def pyStrip (s : String) : String :=
  ⟨((s.data.dropWhile Char.isWhitespace).reverse.dropWhile
      Char.isWhitespace).reverse⟩

/-- Python `s.startswith(p)`. -/
def pyStartsWith (s p : String) : Bool :=
  s.data.take p.data.length == p.data

/-- Drop the first `n` characters of a string (`ln.split(":", 1)[1]` for a
line known to start with the 10-character marker `"-- cursor:"`, whose only
colon before the split point is the marker's own). -/
def pyDropChars (s : String) (n : Nat) : String :=
  ⟨s.data.drop n⟩

/-- Python emptiness test of a string. -/
def pyEmpty (s : String) : Bool :=
  s.data.isEmpty

/-- Python truthiness of an optional string (`if self._cursor:` is false
both for `None` and for the empty string). -/
def strTruthy : Option String → Bool
  | none => false
  | some s => !pyEmpty s

/-- The Python slice `l[-n:]` on a list. -/
def lastN (n : Nat) (l : List String) : List String :=
  l.drop (l.length - n)

/-- One `deque(maxlen=limit).append(x)`: when the deque is full the oldest
element is evicted first. -/
def dequeAppend (limit : Nat) (buf : List String) (x : String) : List String :=
  if buf.length < limit then buf ++ [x]
  else buf.drop (buf.length - limit + 1) ++ [x]

/-- A `for ln in xs: buffer.append(ln)` loop over a `deque(maxlen=limit)`. -/
def dequeExtend (limit : Nat) (buf : List String) (xs : List String) : List String :=
  xs.foldl (dequeAppend limit) buf

/-- Index of the most recent occurrence of `x` in `l`, i.e. the backward
scan `for i in range(len(l) - 1, -1, -1): if l[i] == x: break` used by the
tail-diff code. -/
def lastIdxOf (l : List String) (x : String) : Option Nat :=
  match l with
  | [] => none
  | a :: rest =>
    match lastIdxOf rest x with
    | some i => some (i + 1)
    | none => if a = x then some 0 else none

/-- `DiagnosticsFeed._extract_cursor`: scan the raw lines backward for the
first line starting with `"-- cursor:"`; take the text after the first
colon, stripped; an empty value is `None` (`return v or None`). -/
def extract_cursor (raw_lines : List String) : Option String :=
  match raw_lines.reverse.find? (fun ln => pyStartsWith ln "-- cursor:") with
  | none => none
  | some ln =>
    let v := pyStrip (pyDropChars ln 10)
    if pyEmpty v then none else some v

/-- `DiagnosticsFeed._filter_journal_lines`: rstrip each line; drop blank
lines, the `"-- No entries --"` sentinel and `"-- cursor:"` trailer lines. -/
def filter_journal_lines (raw_lines : List String) : List String :=
  raw_lines.filterMap (fun ln0 =>
    let ln := pyRstrip ln0
    if pyEmpty ln then none
    else if ln = "-- No entries --" then none
    else if pyStartsWith ln "-- cursor:" then none
    else some ln)

/-- The dmesg window normalisation
`[ln.rstrip() for ln in out.splitlines() if ln.strip()]`. -/
def dmesg_window (raw : List String) : List String :=
  (raw.filter (fun ln => !pyEmpty (pyStrip ln))).map (fun ln => pyRstrip ln)

/-- `DiagnosticsFeed._poll_dmesg`. `dout` is the outcome of the candidate
invocation loop: `none` when every candidate failed, `some raw` for the
first successful output's lines. -/
def DiagnosticsFeed.poll_dmesg (st : DiagnosticsFeed) (force_reset : Bool)
    (dout : Option (List String)) : (List String × Bool) × DiagnosticsFeed :=
  match st._dmesg with
  | none => (([], true), { st with _buffer := [], _dmesg_tail := none })
  | some _ =>
    match dout with
    | none => (([], true), { st with _buffer := [], _dmesg_tail := none })
    | some raw =>
      let all_lines := dmesg_window raw
      let tail := lastN st.limit all_lines
      if force_reset || st._dmesg_tail.isNone then
        let buf := dequeExtend st.limit [] tail
        ((buf, true), { st with _buffer := buf, _dmesg_tail := tail.getLast? })
      else
        match st._dmesg_tail with
        | none =>
          let buf := dequeExtend st.limit [] tail
          ((buf, true), { st with _buffer := buf, _dmesg_tail := tail.getLast? })
        | some last =>
          match lastIdxOf all_lines last with
          | none =>
            let buf := dequeExtend st.limit [] tail
            ((buf, true), { st with _buffer := buf, _dmesg_tail := tail.getLast? })
          | some i =>
            let new_lines := all_lines.drop (i + 1)
            let buf := dequeExtend st.limit st._buffer new_lines
            ((new_lines, false),
             { st with _buffer := buf, _dmesg_tail := buf.getLast? })

/-- The cursor-update step of `_poll_journalctl`
(`cursor = self._extract_cursor(raw_lines); if cursor: self._cursor = cursor`). -/
def DiagnosticsFeed.updateCursor (st : DiagnosticsFeed) (raw_lines : List String) :
    DiagnosticsFeed :=
  match extract_cursor raw_lines with
  | some c => { st with _cursor := some c }
  | none => st

/-- `DiagnosticsFeed._poll_journalctl`. `jout` is the `journalctl`
invocation outcome; `dout` is the dmesg outcome used when the except
branch falls over to `_poll_dmesg(force_reset=True)`. -/
def DiagnosticsFeed.poll_journalctl (st : DiagnosticsFeed)
    (jout dout : Option (List String)) : (List String × Bool) × DiagnosticsFeed :=
  let reset_required :=
    if strTruthy st._cursor then false else st._buffer.length == 0
  match jout with
  | none =>
    if st._dmesg.isSome then
      DiagnosticsFeed.poll_dmesg
        { st with _backend := some Backend.dmesg, _cursor := none } true dout
    else
      (([], true), { st with _buffer := [], _cursor := none })
  | some raw_lines =>
    let st := st.updateCursor raw_lines
    let lines := filter_journal_lines raw_lines
    if reset_required then
      let buf := dequeExtend st.limit [] (lastN st.limit lines)
      ((buf, true), { st with _buffer := buf, _journal_tail := buf.getLast? })
    else if strTruthy st._cursor then
      let new_lines := lines
      let buf := dequeExtend st.limit st._buffer new_lines
      ((new_lines, false),
       { st with _buffer := buf,
                 _journal_tail :=
                   if new_lines.isEmpty then st._journal_tail else buf.getLast? })
    else
      match st._journal_tail with
      | none =>
        let buf := dequeExtend st.limit [] (lastN st.limit lines)
        ((buf, true), { st with _buffer := buf, _journal_tail := buf.getLast? })
      | some last =>
        match lastIdxOf lines last with
        | none =>
          let buf := dequeExtend st.limit [] (lastN st.limit lines)
          ((buf, true), { st with _buffer := buf, _journal_tail := buf.getLast? })
        | some i =>
          let new_lines := lines.drop (i + 1)
          let buf := dequeExtend st.limit st._buffer new_lines
          ((new_lines, false),
           { st with _buffer := buf, _journal_tail := buf.getLast? })

/-- The part of `DiagnosticsFeed.poll` after backend selection: the chain
of `if self._backend == ...` checks and the final tool-disappeared reset. -/
def DiagnosticsFeed.poll_selected (st : DiagnosticsFeed)
    (jout dout : Option (List String)) : (List String × Bool) × DiagnosticsFeed :=
  if st._backend = some Backend.journal ∧ st._journalctl.isSome then
    let r := st.poll_journalctl jout dout
    if !r.1.1.isEmpty || r.1.2 then r else (([], false), r.2)
  else if st._backend = some Backend.dmesg ∧ st._dmesg.isSome then
    st.poll_dmesg false dout
  else
    (([], true),
     { st with _buffer := [], _backend := none, _cursor := none,
               _dmesg_tail := none })

/-- `DiagnosticsFeed.poll`: select a backend on first use, then delegate. -/
def DiagnosticsFeed.poll (st : DiagnosticsFeed)
    (jout dout : Option (List String)) : (List String × Bool) × DiagnosticsFeed :=
  match st._backend with
  | none =>
    if st._journalctl.isSome then
      DiagnosticsFeed.poll_selected { st with _backend := some Backend.journal }
        jout dout
    else if st._dmesg.isSome then
      DiagnosticsFeed.poll_selected { st with _backend := some Backend.dmesg }
        jout dout
    else
      (([], true), st)
  | some _ => DiagnosticsFeed.poll_selected st jout dout

/-- A sequence of polls, threading the state; each element of `inputs` is
the pair of invocation outcomes (journal, dmesg) offered to that poll. -/
def DiagnosticsFeed.pollRun (st : DiagnosticsFeed)
    (inputs : List (Option (List String) × Option (List String))) :
    DiagnosticsFeed :=
  inputs.foldl (fun s io => (s.poll io.1 io.2).2) st

/-- Well-formedness of a feed state: positive capacity and a buffer within
capacity (established by `init`, preserved by `poll`). -/
def DiagnosticsFeed.wf (st : DiagnosticsFeed) : Prop :=
  1 ≤ st.limit ∧ st._buffer.length ≤ st.limit

/-! ### Lemmas about the buffer primitives -/

theorem lastN_eq_self {n : Nat} {l : List String} (h : l.length ≤ n) :
    lastN n l = l := by
  unfold lastN
  rw [Nat.sub_eq_zero_of_le h, List.drop_zero]

theorem lastN_length_le (n : Nat) (l : List String) : (lastN n l).length ≤ n := by
  unfold lastN
  rw [List.length_drop]
  omega

theorem lastN_reverse (n : Nat) (l : List String) :
    (lastN n l).reverse = l.reverse.take n := by
  unfold lastN
  rw [List.reverse_drop]
  rcases Nat.le_total n l.length with h | h
  · rw [Nat.sub_sub_self h]
  · rw [Nat.sub_eq_zero_of_le h, Nat.sub_zero,
      List.take_of_length_le (le_of_eq (List.length_reverse l)),
      List.take_of_length_le (by rw [List.length_reverse]; exact h)]

theorem lastN_append_lastN (n : Nat) (l xs : List String) :
    lastN n (lastN n l ++ xs) = lastN n (l ++ xs) := by
  have h1 : (lastN n (lastN n l ++ xs)).reverse = (lastN n (l ++ xs)).reverse := by
    rw [lastN_reverse, lastN_reverse, List.reverse_append, List.reverse_append,
      List.take_append_eq_append_take, List.take_append_eq_append_take]
    congr 1
    rw [lastN_reverse, List.take_take]
    congr 1
    exact Nat.min_eq_left (Nat.sub_le _ _)
  exact List.reverse_injective h1

theorem dequeAppend_suffix (limit : Nat) (buf : List String) (x : String) :
    dequeAppend limit buf x <:+ buf ++ [x] := by
  unfold dequeAppend
  split
  · exact List.suffix_rfl
  · obtain ⟨t, ht⟩ := List.drop_suffix (buf.length - limit + 1) buf
    exact ⟨t, by rw [← List.append_assoc, ht]⟩

theorem dequeExtend_suffix (limit : Nat) (buf xs : List String) :
    dequeExtend limit buf xs <:+ buf ++ xs := by
  induction xs generalizing buf with
  | nil => simp [dequeExtend]
  | cons x xs ih =>
    have h1 := ih (dequeAppend limit buf x)
    have h2 : dequeAppend limit buf x ++ xs <:+ (buf ++ [x]) ++ xs := by
      obtain ⟨t, ht⟩ := dequeAppend_suffix limit buf x
      exact ⟨t, by rw [← List.append_assoc, ht]⟩
    have h3 := h1.trans h2
    simpa [dequeExtend, List.append_assoc] using h3

theorem dequeAppend_eq_lastN {limit : Nat} (hl : 1 ≤ limit) {buf : List String}
    (hb : buf.length ≤ limit) (x : String) :
    dequeAppend limit buf x = lastN limit (buf ++ [x]) := by
  unfold dequeAppend
  by_cases h : buf.length < limit
  · rw [if_pos h, lastN_eq_self (by rw [List.length_append]; simp; omega)]
  · rw [if_neg h]
    have hlen : buf.length = limit := le_antisymm hb (le_of_not_lt h)
    unfold lastN
    rw [List.length_append, List.drop_append_eq_append_drop]
    have h1 : buf.length + [x].length - limit = 1 := by simp [hlen]
    have h2 : buf.length - limit + 1 = 1 := by simp [hlen]
    have h3 : (1 : Nat) - buf.length = 0 := by omega
    rw [h1, h2, h3, List.drop_zero]

theorem dequeAppend_length_le {limit : Nat} (hl : 1 ≤ limit) {buf : List String}
    (hb : buf.length ≤ limit) (x : String) :
    (dequeAppend limit buf x).length ≤ limit := by
  rw [dequeAppend_eq_lastN hl hb]
  exact lastN_length_le _ _

theorem dequeExtend_eq_lastN {limit : Nat} (hl : 1 ≤ limit) {buf : List String}
    (hb : buf.length ≤ limit) (xs : List String) :
    dequeExtend limit buf xs = lastN limit (buf ++ xs) := by
  induction xs generalizing buf with
  | nil => simpa [dequeExtend] using (lastN_eq_self hb).symm
  | cons x xs ih =>
    have h1 : (dequeAppend limit buf x).length ≤ limit := dequeAppend_length_le hl hb x
    calc dequeExtend limit buf (x :: xs)
        = dequeExtend limit (dequeAppend limit buf x) xs := by
          simp [dequeExtend, List.foldl_cons]
      _ = lastN limit (dequeAppend limit buf x ++ xs) := ih h1
      _ = lastN limit (lastN limit (buf ++ [x]) ++ xs) := by
          rw [dequeAppend_eq_lastN hl hb]
      _ = lastN limit ((buf ++ [x]) ++ xs) := lastN_append_lastN _ _ _
      _ = lastN limit (buf ++ x :: xs) := by rw [List.append_assoc]; rfl

theorem dequeExtend_length_le {limit : Nat} (hl : 1 ≤ limit) {buf : List String}
    (hb : buf.length ≤ limit) (xs : List String) :
    (dequeExtend limit buf xs).length ≤ limit := by
  rw [dequeExtend_eq_lastN hl hb]
  exact lastN_length_le _ _

theorem dequeExtend_nil_buf {limit : Nat} (hl : 1 ≤ limit) (xs : List String) :
    dequeExtend limit [] xs = lastN limit xs := by
  simpa using dequeExtend_eq_lastN hl (by simp) xs

/-! ### Lemmas about the backward tail-marker scan -/

theorem lastIdxOf_eq_none_of_not_mem {l : List String} {x : String} (h : x ∉ l) :
    lastIdxOf l x = none := by
  induction l with
  | nil => rfl
  | cons a rest ih =>
    have hx : x ∉ rest := fun hm => h (List.mem_cons_of_mem _ hm)
    have ha : ¬(a = x) := fun he => h (he ▸ List.mem_cons_self a rest)
    unfold lastIdxOf
    rw [ih hx, if_neg ha]

theorem lastIdxOf_eq_some_of {l : List String} {x : String} {i : Nat}
    (hi : l[i]? = some x) (hgt : ∀ j, i < j → l[j]? ≠ some x) :
    lastIdxOf l x = some i := by
  induction l generalizing i with
  | nil => simp at hi
  | cons a rest ih =>
    cases i with
    | zero =>
      have ha : a = x := by simpa using hi
      have hrest : x ∉ rest := by
        intro hm
        obtain ⟨k, hk⟩ := List.getElem?_of_mem hm
        exact hgt (k + 1) (Nat.succ_pos k) (by simpa using hk)
      unfold lastIdxOf
      rw [lastIdxOf_eq_none_of_not_mem hrest, if_pos ha]
    | succ i' =>
      have hi' : rest[i']? = some x := by simpa using hi
      have hgt' : ∀ j, i' < j → rest[j]? ≠ some x := by
        intro j hj hc
        exact hgt (j + 1) (Nat.succ_lt_succ hj) (by simpa using hc)
      unfold lastIdxOf
      rw [ih hi' hgt']

theorem lastIdxOf_getLast? {l : List String} {m : String} (h : l.getLast? = some m) :
    lastIdxOf l m = some (l.length - 1) := by
  have hi : l[l.length - 1]? = some m := by
    rw [← List.getLast?_eq_getElem?]; exact h
  refine lastIdxOf_eq_some_of hi ?_
  intro j hj
  have hlen : l.length ≤ j := by omega
  rw [List.getElem?_eq_none hlen]
  simp

/-! ### Facts about the cursor extraction and update -/

theorem extract_cursor_isEmpty_false {raw : List String} {c : String}
    (h : extract_cursor raw = some c) : pyEmpty c = false := by
  unfold extract_cursor at h
  rcases hf : raw.reverse.find? (fun ln => pyStartsWith ln "-- cursor:") with _ | ln
  · rw [hf] at h; exact absurd h (by simp)
  · rw [hf] at h
    simp only [] at h
    by_cases he : pyEmpty (pyStrip (pyDropChars ln 10)) = true
    · rw [if_pos he] at h; exact absurd h (by simp)
    · rw [if_neg he] at h
      cases h
      revert he
      cases pyEmpty (pyStrip (pyDropChars ln 10)) <;> simp

@[simp] theorem updateCursor_limit (st : DiagnosticsFeed) (raw : List String) :
    (st.updateCursor raw).limit = st.limit := by
  unfold DiagnosticsFeed.updateCursor; split <;> rfl

@[simp] theorem updateCursor_buffer (st : DiagnosticsFeed) (raw : List String) :
    (st.updateCursor raw)._buffer = st._buffer := by
  unfold DiagnosticsFeed.updateCursor; split <;> rfl

@[simp] theorem updateCursor_backend (st : DiagnosticsFeed) (raw : List String) :
    (st.updateCursor raw)._backend = st._backend := by
  unfold DiagnosticsFeed.updateCursor; split <;> rfl

@[simp] theorem updateCursor_journalctl (st : DiagnosticsFeed) (raw : List String) :
    (st.updateCursor raw)._journalctl = st._journalctl := by
  unfold DiagnosticsFeed.updateCursor; split <;> rfl

@[simp] theorem updateCursor_dmesg (st : DiagnosticsFeed) (raw : List String) :
    (st.updateCursor raw)._dmesg = st._dmesg := by
  unfold DiagnosticsFeed.updateCursor; split <;> rfl

@[simp] theorem updateCursor_journal_tail (st : DiagnosticsFeed) (raw : List String) :
    (st.updateCursor raw)._journal_tail = st._journal_tail := by
  unfold DiagnosticsFeed.updateCursor; split <;> rfl

@[simp] theorem updateCursor_dmesg_tail (st : DiagnosticsFeed) (raw : List String) :
    (st.updateCursor raw)._dmesg_tail = st._dmesg_tail := by
  unfold DiagnosticsFeed.updateCursor; split <;> rfl

theorem updateCursor_of_extract_none {st : DiagnosticsFeed} {raw : List String}
    (h : extract_cursor raw = none) : st.updateCursor raw = st := by
  unfold DiagnosticsFeed.updateCursor
  rw [h]

theorem updateCursor_truthy (st : DiagnosticsFeed) (raw : List String)
    (h : strTruthy st._cursor = true) :
    strTruthy (st.updateCursor raw)._cursor = true := by
  unfold DiagnosticsFeed.updateCursor
  rcases he : extract_cursor raw with _ | c
  · exact h
  · simp only [strTruthy]
    rw [extract_cursor_isEmpty_false he]
    rfl

/-! ### Branch equations for `_poll_dmesg` -/

theorem poll_dmesg_no_tool (st : DiagnosticsFeed) (fr : Bool)
    (dout : Option (List String)) (hd : st._dmesg = none) :
    st.poll_dmesg fr dout =
      (([], true), { st with _buffer := [], _dmesg_tail := none }) := by
  unfold DiagnosticsFeed.poll_dmesg
  rw [hd]

theorem poll_dmesg_fail (st : DiagnosticsFeed) (fr : Bool) {s : String}
    (hd : st._dmesg = some s) :
    st.poll_dmesg fr none =
      (([], true), { st with _buffer := [], _dmesg_tail := none }) := by
  unfold DiagnosticsFeed.poll_dmesg
  rw [hd]

theorem poll_dmesg_reset (st : DiagnosticsFeed) {fr : Bool} (raw : List String)
    {s : String} (hd : st._dmesg = some s) (h : fr = true ∨ st._dmesg_tail = none) :
    st.poll_dmesg fr (some raw) =
      ((dequeExtend st.limit [] (lastN st.limit (dmesg_window raw)), true),
       { st with
           _buffer := dequeExtend st.limit [] (lastN st.limit (dmesg_window raw)),
           _dmesg_tail := (lastN st.limit (dmesg_window raw)).getLast? }) := by
  unfold DiagnosticsFeed.poll_dmesg
  rw [hd]
  have hc : (fr || st._dmesg_tail.isNone) = true := by
    rcases h with h | h <;> simp [h]
  simp only [hc, if_true]

theorem poll_dmesg_notfound (st : DiagnosticsFeed) (raw : List String)
    {s M : String} (hd : st._dmesg = some s) (ht : st._dmesg_tail = some M)
    (hnf : lastIdxOf (dmesg_window raw) M = none) :
    st.poll_dmesg false (some raw) =
      ((dequeExtend st.limit [] (lastN st.limit (dmesg_window raw)), true),
       { st with
           _buffer := dequeExtend st.limit [] (lastN st.limit (dmesg_window raw)),
           _dmesg_tail := (lastN st.limit (dmesg_window raw)).getLast? }) := by
  unfold DiagnosticsFeed.poll_dmesg
  rw [hd, ht]
  simp only [Option.isNone_some, Bool.false_or, hnf]
  rw [if_neg (by simp)]

theorem poll_dmesg_found (st : DiagnosticsFeed) (raw : List String)
    {s M : String} {i : Nat} (hd : st._dmesg = some s) (ht : st._dmesg_tail = some M)
    (hf : lastIdxOf (dmesg_window raw) M = some i) :
    st.poll_dmesg false (some raw) =
      (((dmesg_window raw).drop (i + 1), false),
       { st with
           _buffer := dequeExtend st.limit st._buffer ((dmesg_window raw).drop (i + 1)),
           _dmesg_tail :=
             (dequeExtend st.limit st._buffer
               ((dmesg_window raw).drop (i + 1))).getLast? }) := by
  unfold DiagnosticsFeed.poll_dmesg
  rw [hd, ht]
  simp only [Option.isNone_some, Bool.false_or, hf]
  rw [if_neg (by simp)]

theorem poll_dmesg_backend (st : DiagnosticsFeed) (fr : Bool)
    (dout : Option (List String)) :
    (st.poll_dmesg fr dout).2._backend = st._backend := by
  rcases hd : st._dmesg with _ | s
  · rw [poll_dmesg_no_tool st fr dout hd]
  · rcases dout with _ | raw
    · rw [poll_dmesg_fail st fr hd]
    · by_cases hfr : fr = true
      · rw [poll_dmesg_reset st raw hd (Or.inl hfr)]
      · have hfr' : fr = false := by
          cases fr
          · rfl
          · exact absurd rfl hfr
        subst hfr'
        rcases ht : st._dmesg_tail with _ | M
        · rw [poll_dmesg_reset st raw hd (Or.inr ht)]
        · rcases hf : lastIdxOf (dmesg_window raw) M with _ | i
          · rw [poll_dmesg_notfound st raw hd ht hf]
          · rw [poll_dmesg_found st raw hd ht hf]

theorem poll_dmesg_force_reset_true (st : DiagnosticsFeed)
    (dout : Option (List String)) :
    (st.poll_dmesg true dout).1.2 = true := by
  rcases hd : st._dmesg with _ | s
  · rw [poll_dmesg_no_tool st true dout hd]
  · rcases dout with _ | raw
    · rw [poll_dmesg_fail st true hd]
    · rw [poll_dmesg_reset st raw hd (Or.inl rfl)]

/-! ### Branch equations for `_poll_journalctl` -/

theorem poll_journalctl_fail_fallback (st : DiagnosticsFeed)
    (dout : Option (List String)) {s : String} (hd : st._dmesg = some s) :
    st.poll_journalctl none dout =
      DiagnosticsFeed.poll_dmesg
        { st with _backend := some Backend.dmesg, _cursor := none } true dout := by
  unfold DiagnosticsFeed.poll_journalctl
  simp only [hd, Option.isSome_some, if_true]

theorem poll_journalctl_fail_no_dmesg (st : DiagnosticsFeed)
    (dout : Option (List String)) (hd : st._dmesg = none) :
    st.poll_journalctl none dout =
      (([], true), { st with _buffer := [], _cursor := none }) := by
  unfold DiagnosticsFeed.poll_journalctl
  simp only [hd, Option.isSome_none]
  rw [if_neg (by simp)]

theorem poll_journalctl_reset (st : DiagnosticsFeed) (raw : List String)
    (dout : Option (List String)) (hc : strTruthy st._cursor = false)
    (hb : st._buffer.length = 0) :
    st.poll_journalctl (some raw) dout =
      ((dequeExtend st.limit [] (lastN st.limit (filter_journal_lines raw)), true),
       { st.updateCursor raw with
           _buffer :=
             dequeExtend st.limit [] (lastN st.limit (filter_journal_lines raw)),
           _journal_tail :=
             (dequeExtend st.limit []
               (lastN st.limit (filter_journal_lines raw))).getLast? }) := by
  unfold DiagnosticsFeed.poll_journalctl
  simp only []
  have hcond : (if strTruthy st._cursor = true then false
      else st._buffer.length == 0) = true := by
    simp [hc, hb]
  rw [if_pos hcond]
  simp only [updateCursor_limit]

theorem poll_journalctl_cursor_append (st : DiagnosticsFeed) (raw : List String)
    (dout : Option (List String))
    (hrr : (if strTruthy st._cursor then false else st._buffer.length == 0) = false)
    (hct : strTruthy (st.updateCursor raw)._cursor = true) :
    st.poll_journalctl (some raw) dout =
      ((filter_journal_lines raw, false),
       { st.updateCursor raw with
           _buffer := dequeExtend st.limit st._buffer (filter_journal_lines raw),
           _journal_tail :=
             if (filter_journal_lines raw).isEmpty then st._journal_tail
             else (dequeExtend st.limit st._buffer
                    (filter_journal_lines raw)).getLast? }) := by
  unfold DiagnosticsFeed.poll_journalctl
  simp only []
  have hrr' : ¬((if strTruthy st._cursor = true then false
      else st._buffer.length == 0) = true) := by
    rw [hrr]; simp
  rw [if_neg hrr', if_pos hct]
  simp only [updateCursor_limit, updateCursor_buffer, updateCursor_journal_tail]

theorem poll_journalctl_tail_reset (st : DiagnosticsFeed) (raw : List String)
    (dout : Option (List String))
    (hrr : (if strTruthy st._cursor then false else st._buffer.length == 0) = false)
    (hct : strTruthy (st.updateCursor raw)._cursor = false)
    (h : st._journal_tail = none ∨
      ∃ M, st._journal_tail = some M ∧
        lastIdxOf (filter_journal_lines raw) M = none) :
    st.poll_journalctl (some raw) dout =
      ((dequeExtend st.limit [] (lastN st.limit (filter_journal_lines raw)), true),
       { st.updateCursor raw with
           _buffer :=
             dequeExtend st.limit [] (lastN st.limit (filter_journal_lines raw)),
           _journal_tail :=
             (dequeExtend st.limit []
               (lastN st.limit (filter_journal_lines raw))).getLast? }) := by
  unfold DiagnosticsFeed.poll_journalctl
  simp only []
  have hrr' : ¬((if strTruthy st._cursor = true then false
      else st._buffer.length == 0) = true) := by
    rw [hrr]; simp
  have hct' : ¬(strTruthy (st.updateCursor raw)._cursor = true) := by
    rw [hct]; simp
  rw [if_neg hrr', if_neg hct']
  rcases h with ht | ⟨M, ht, hnf⟩
  · simp only [updateCursor_journal_tail, ht, updateCursor_limit]
  · simp only [updateCursor_journal_tail, ht, hnf, updateCursor_limit]

theorem poll_journalctl_tail_found (st : DiagnosticsFeed) (raw : List String)
    (dout : Option (List String)) {M : String} {i : Nat}
    (hrr : (if strTruthy st._cursor then false else st._buffer.length == 0) = false)
    (hct : strTruthy (st.updateCursor raw)._cursor = false)
    (ht : st._journal_tail = some M)
    (hf : lastIdxOf (filter_journal_lines raw) M = some i) :
    st.poll_journalctl (some raw) dout =
      (((filter_journal_lines raw).drop (i + 1), false),
       { st.updateCursor raw with
           _buffer :=
             dequeExtend st.limit st._buffer
               ((filter_journal_lines raw).drop (i + 1)),
           _journal_tail :=
             (dequeExtend st.limit st._buffer
               ((filter_journal_lines raw).drop (i + 1))).getLast? }) := by
  unfold DiagnosticsFeed.poll_journalctl
  simp only []
  have hrr' : ¬((if strTruthy st._cursor = true then false
      else st._buffer.length == 0) = true) := by
    rw [hrr]; simp
  have hct' : ¬(strTruthy (st.updateCursor raw)._cursor = true) := by
    rw [hct]; simp
  rw [if_neg hrr', if_neg hct']
  simp only [updateCursor_journal_tail, ht, hf, updateCursor_limit,
    updateCursor_buffer]

/-! ### Dispatch equations for `poll` -/

theorem poll_selected_journal (st : DiagnosticsFeed)
    (jout dout : Option (List String)) (hb : st._backend = some Backend.journal)
    (hj : st._journalctl.isSome = true) :
    st.poll_selected jout dout =
      (if !(st.poll_journalctl jout dout).1.1.isEmpty
          || (st.poll_journalctl jout dout).1.2
       then st.poll_journalctl jout dout
       else (([], false), (st.poll_journalctl jout dout).2)) := by
  unfold DiagnosticsFeed.poll_selected
  rw [if_pos ⟨hb, hj⟩]

theorem poll_selected_dmesg (st : DiagnosticsFeed)
    (jout dout : Option (List String)) (hb : st._backend = some Backend.dmesg)
    (hd : st._dmesg.isSome = true) :
    st.poll_selected jout dout = st.poll_dmesg false dout := by
  unfold DiagnosticsFeed.poll_selected
  rw [if_neg (by simp [hb]), if_pos ⟨hb, hd⟩]

theorem poll_selected_unavailable (st : DiagnosticsFeed)
    (jout dout : Option (List String))
    (h1 : ¬(st._backend = some Backend.journal ∧ st._journalctl.isSome = true))
    (h2 : ¬(st._backend = some Backend.dmesg ∧ st._dmesg.isSome = true)) :
    st.poll_selected jout dout =
      (([], true),
       { st with _buffer := [], _backend := none, _cursor := none,
                 _dmesg_tail := none }) := by
  unfold DiagnosticsFeed.poll_selected
  rw [if_neg h1, if_neg h2]

theorem poll_of_backend_some (st : DiagnosticsFeed)
    (jout dout : Option (List String)) {b : Backend} (hb : st._backend = some b) :
    st.poll jout dout = st.poll_selected jout dout := by
  unfold DiagnosticsFeed.poll
  rw [hb]

theorem poll_of_none_journal (st : DiagnosticsFeed)
    (jout dout : Option (List String)) (hb : st._backend = none)
    (hj : st._journalctl.isSome = true) :
    st.poll jout dout =
      DiagnosticsFeed.poll_selected { st with _backend := some Backend.journal }
        jout dout := by
  unfold DiagnosticsFeed.poll
  rw [hb]
  simp only [hj, if_true]

theorem poll_of_none_dmesg (st : DiagnosticsFeed)
    (jout dout : Option (List String)) (hb : st._backend = none)
    (hj : st._journalctl = none) (hd : st._dmesg.isSome = true) :
    st.poll jout dout =
      DiagnosticsFeed.poll_selected { st with _backend := some Backend.dmesg }
        jout dout := by
  unfold DiagnosticsFeed.poll
  rw [hb]
  rw [if_neg (by simp [hj])]
  simp only [hd, if_true]

theorem poll_of_no_tools (st : DiagnosticsFeed)
    (jout dout : Option (List String)) (hb : st._backend = none)
    (hj : st._journalctl = none) (hd : st._dmesg = none) :
    st.poll jout dout = (([], true), st) := by
  unfold DiagnosticsFeed.poll
  rw [hb]
  rw [if_neg (by simp [hj]), if_neg (by simp [hd])]

/-! ### The outcome invariant of a single poll -/

/-- Facts relating any single poll outcome `r` to its pre-state `st`: the
capacity and tool lookups are untouched; a reset result carries either no
lines or exactly the post-poll buffer; a non-reset result's post buffer is
the pre buffer extended (through the capacity-bounded deque) by the
returned lines; the buffer stays within capacity; and the post buffer is a
suffix of the pre buffer followed by the returned lines. -/
def PollOutcome (st : DiagnosticsFeed)
    (r : (List String × Bool) × DiagnosticsFeed) : Prop :=
  r.2.limit = st.limit ∧
  r.2._journalctl = st._journalctl ∧
  r.2._dmesg = st._dmesg ∧
  (r.1.2 = true → r.1.1 = [] ∨ r.1.1 = r.2._buffer) ∧
  (r.1.2 = false → r.2._buffer = dequeExtend st.limit st._buffer r.1.1) ∧
  (1 ≤ st.limit → st._buffer.length ≤ st.limit → r.2._buffer.length ≤ st.limit) ∧
  r.2._buffer <:+ st._buffer ++ r.1.1

theorem pollOutcome_poll_dmesg (st : DiagnosticsFeed) (fr : Bool)
    (dout : Option (List String)) : PollOutcome st (st.poll_dmesg fr dout) := by
  have hreset : ∀ raw : List String,
      PollOutcome st
        ((dequeExtend st.limit [] (lastN st.limit (dmesg_window raw)), true),
         { st with
             _buffer := dequeExtend st.limit [] (lastN st.limit (dmesg_window raw)),
             _dmesg_tail := (lastN st.limit (dmesg_window raw)).getLast? }) := by
    intro raw
    refine ⟨rfl, rfl, rfl, fun _ => Or.inr rfl, fun h => Bool.noConfusion h,
      fun hl _ => dequeExtend_length_le hl (by simp) _, List.suffix_append _ _⟩
  have hfail :
      PollOutcome st (([], true), { st with _buffer := [], _dmesg_tail := none }) := by
    refine ⟨rfl, rfl, rfl, fun _ => Or.inl rfl, fun h => Bool.noConfusion h,
      fun _ _ => by simp, List.nil_suffix⟩
  rcases hd : st._dmesg with _ | s
  · rw [poll_dmesg_no_tool st fr dout hd]; exact hfail
  · rcases dout with _ | raw
    · rw [poll_dmesg_fail st fr hd]; exact hfail
    · cases fr with
      | true => rw [poll_dmesg_reset st raw hd (Or.inl rfl)]; exact hreset raw
      | false =>
        rcases ht : st._dmesg_tail with _ | M
        · rw [poll_dmesg_reset st raw hd (Or.inr ht)]; exact hreset raw
        · rcases hf : lastIdxOf (dmesg_window raw) M with _ | i
          · rw [poll_dmesg_notfound st raw hd ht hf]; exact hreset raw
          · rw [poll_dmesg_found st raw hd ht hf]
            refine ⟨rfl, rfl, rfl, fun h => Bool.noConfusion h, fun _ => rfl,
              fun hl hb => dequeExtend_length_le hl hb _, dequeExtend_suffix _ _ _⟩

theorem pollOutcome_poll_journalctl (st : DiagnosticsFeed)
    (jout dout : Option (List String)) :
    PollOutcome st (st.poll_journalctl jout dout) := by
  rcases jout with _ | raw
  · rcases hd : st._dmesg with _ | s
    · rw [poll_journalctl_fail_no_dmesg st dout hd]
      exact ⟨rfl, rfl, rfl, fun _ => Or.inl rfl, fun h => Bool.noConfusion h,
        fun _ _ => by simp, List.nil_suffix⟩
    · rw [poll_journalctl_fail_fallback st dout hd]
      exact pollOutcome_poll_dmesg
        { st with _backend := some Backend.dmesg, _cursor := none } true dout
  · have hreset :
        PollOutcome st
          ((dequeExtend st.limit [] (lastN st.limit (filter_journal_lines raw)), true),
           { st.updateCursor raw with
               _buffer :=
                 dequeExtend st.limit [] (lastN st.limit (filter_journal_lines raw)),
               _journal_tail :=
                 (dequeExtend st.limit []
                   (lastN st.limit (filter_journal_lines raw))).getLast? }) := by
      refine ⟨by simp, by simp, by simp, fun _ => Or.inr rfl,
        fun h => Bool.noConfusion h,
        fun hl _ => dequeExtend_length_le hl (by simp) _, List.suffix_append _ _⟩
    by_cases hstc : strTruthy st._cursor = true
    · have hrr : (if strTruthy st._cursor then false else st._buffer.length == 0)
          = false := by simp [hstc]
      have hct := updateCursor_truthy st raw hstc
      rw [poll_journalctl_cursor_append st raw dout hrr hct]
      refine ⟨by simp, by simp, by simp, fun h => Bool.noConfusion h, fun _ => rfl,
        fun hl hb => dequeExtend_length_le hl hb _, dequeExtend_suffix _ _ _⟩
    · have hstc' : strTruthy st._cursor = false := by
        revert hstc; cases strTruthy st._cursor <;> simp
      by_cases hbuf : st._buffer.length = 0
      · rw [poll_journalctl_reset st raw dout hstc' hbuf]
        exact hreset
      · have hrr : (if strTruthy st._cursor then false else st._buffer.length == 0)
            = false := by
          rw [hstc']
          simpa using hbuf
        by_cases hct : strTruthy (st.updateCursor raw)._cursor = true
        · rw [poll_journalctl_cursor_append st raw dout hrr hct]
          refine ⟨by simp, by simp, by simp, fun h => Bool.noConfusion h,
            fun _ => rfl, fun hl hb => dequeExtend_length_le hl hb _,
            dequeExtend_suffix _ _ _⟩
        · have hct' : strTruthy (st.updateCursor raw)._cursor = false := by
            revert hct; cases strTruthy (st.updateCursor raw)._cursor <;> simp
          rcases ht : st._journal_tail with _ | M
          · rw [poll_journalctl_tail_reset st raw dout hrr hct' (Or.inl ht)]
            exact hreset
          · rcases hf : lastIdxOf (filter_journal_lines raw) M with _ | i
            · rw [poll_journalctl_tail_reset st raw dout hrr hct'
                (Or.inr ⟨M, ht, hf⟩)]
              exact hreset
            · rw [poll_journalctl_tail_found st raw dout hrr hct' ht hf]
              refine ⟨by simp, by simp, by simp, fun h => Bool.noConfusion h,
                fun _ => rfl, fun hl hb => dequeExtend_length_le hl hb _,
                dequeExtend_suffix _ _ _⟩

theorem pollOutcome_poll_selected (st : DiagnosticsFeed)
    (jout dout : Option (List String)) :
    PollOutcome st (st.poll_selected jout dout) := by
  by_cases h1 : st._backend = some Backend.journal ∧ st._journalctl.isSome = true
  · rw [poll_selected_journal st jout dout h1.1 h1.2]
    have hj := pollOutcome_poll_journalctl st jout dout
    by_cases hc :
        (!(st.poll_journalctl jout dout).1.1.isEmpty
          || (st.poll_journalctl jout dout).1.2) = true
    · rw [if_pos hc]; exact hj
    · rw [if_neg hc]
      have hcf :
          (!(st.poll_journalctl jout dout).1.1.isEmpty
            || (st.poll_journalctl jout dout).1.2) = false := by
        revert hc
        cases (!(st.poll_journalctl jout dout).1.1.isEmpty
          || (st.poll_journalctl jout dout).1.2) <;> simp
      have h11 : (st.poll_journalctl jout dout).1.1 = [] := by
        have h := (Bool.or_eq_false_iff.mp hcf).1
        simpa using h
      have h12 : (st.poll_journalctl jout dout).1.2 = false :=
        (Bool.or_eq_false_iff.mp hcf).2
      obtain ⟨e1, e2, e3, _, hfalse, hlen, hsuf⟩ := hj
      refine ⟨e1, e2, e3, fun h => Bool.noConfusion h, fun _ => ?_, hlen, ?_⟩
      · have h := hfalse h12
        rw [h11] at h
        exact h
      · have h := hsuf
        rw [h11] at h
        exact h
  · by_cases h2 : st._backend = some Backend.dmesg ∧ st._dmesg.isSome = true
    · rw [poll_selected_dmesg st jout dout h2.1 h2.2]
      exact pollOutcome_poll_dmesg st false dout
    · rw [poll_selected_unavailable st jout dout h1 h2]
      exact ⟨rfl, rfl, rfl, fun _ => Or.inl rfl, fun h => Bool.noConfusion h,
        fun _ _ => by simp, List.nil_suffix⟩

theorem pollOutcome_poll (st : DiagnosticsFeed)
    (jout dout : Option (List String)) : PollOutcome st (st.poll jout dout) := by
  rcases hb : st._backend with _ | b
  · by_cases hj : st._journalctl.isSome = true
    · rw [poll_of_none_journal st jout dout hb hj]
      exact pollOutcome_poll_selected
        { st with _backend := some Backend.journal } jout dout
    · have hj' : st._journalctl = none := by
        revert hj; cases st._journalctl <;> simp
      by_cases hd : st._dmesg.isSome = true
      · rw [poll_of_none_dmesg st jout dout hb hj' hd]
        exact pollOutcome_poll_selected
          { st with _backend := some Backend.dmesg } jout dout
      · have hd' : st._dmesg = none := by
          revert hd; cases st._dmesg <;> simp
        rw [poll_of_no_tools st jout dout hb hj' hd']
        refine ⟨rfl, rfl, rfl, fun _ => Or.inl rfl, fun h => Bool.noConfusion h,
          fun _ h => h, ?_⟩
        rw [List.append_nil]
  · rw [poll_of_backend_some st jout dout hb]
    exact pollOutcome_poll_selected st jout dout

/-! ### Invariants along a run of polls -/

theorem pollRun_nil (st : DiagnosticsFeed) : st.pollRun [] = st := rfl

theorem pollRun_cons (st : DiagnosticsFeed)
    (io : Option (List String) × Option (List String))
    (rest : List (Option (List String) × Option (List String))) :
    st.pollRun (io :: rest) = ((st.poll io.1 io.2).2).pollRun rest := rfl

theorem poll_wf (st : DiagnosticsFeed) (jout dout : Option (List String))
    (h : st.wf) : (st.poll jout dout).2.wf := by
  obtain ⟨e1, _, _, _, _, hlen, _⟩ := pollOutcome_poll st jout dout
  exact ⟨by rw [e1]; exact h.1, by rw [e1]; exact hlen h.1 h.2⟩

theorem pollRun_wf (st : DiagnosticsFeed)
    (inputs : List (Option (List String) × Option (List String)))
    (h : st.wf) : (st.pollRun inputs).wf := by
  induction inputs generalizing st with
  | nil => exact h
  | cons io rest ih =>
    rw [pollRun_cons]
    exact ih _ (poll_wf _ _ _ h)

theorem pollRun_limit (st : DiagnosticsFeed)
    (inputs : List (Option (List String) × Option (List String))) :
    (st.pollRun inputs).limit = st.limit := by
  induction inputs generalizing st with
  | nil => rfl
  | cons io rest ih =>
    rw [pollRun_cons, ih]
    exact (pollOutcome_poll st io.1 io.2).1

theorem init_wf (limit : Nat) (journalctl dmesg : Option String) :
    (DiagnosticsFeed.init limit journalctl dmesg).wf := by
  constructor
  · exact le_max_left 1 limit
  · simp [DiagnosticsFeed.init]

theorem poll_backend_dmesg_sticky (st : DiagnosticsFeed)
    (jout dout : Option (List String)) (hb : st._backend = some Backend.dmesg)
    (hd : st._dmesg.isSome = true) :
    (st.poll jout dout).2._backend = some Backend.dmesg ∧
    (st.poll jout dout).2._dmesg = st._dmesg := by
  rw [poll_of_backend_some st jout dout hb, poll_selected_dmesg st jout dout hb hd]
  constructor
  · rw [poll_dmesg_backend]; exact hb
  · exact (pollOutcome_poll_dmesg st false dout).2.2.1

/-! ### Structure eta helpers and quiescence lemmas -/

theorem feed_eta_journal (u : DiagnosticsFeed) {b : List String}
    {jt : Option String} (hb : u._buffer = b) (hj : u._journal_tail = jt) :
    ({ u with _buffer := b, _journal_tail := jt } : DiagnosticsFeed) = u := by
  cases u
  cases hb
  cases hj
  rfl

theorem feed_eta_dmesg (u : DiagnosticsFeed) {b : List String}
    {dt : Option String} (hb : u._buffer = b) (hd : u._dmesg_tail = dt) :
    ({ u with _buffer := b, _dmesg_tail := dt } : DiagnosticsFeed) = u := by
  cases u
  cases hb
  cases hd
  rfl

theorem poll_dmesg_reset_lines_eq_buffer (st : DiagnosticsFeed)
    (dout : Option (List String)) :
    (st.poll_dmesg true dout).1.1 = (st.poll_dmesg true dout).2._buffer := by
  rcases hd : st._dmesg with _ | s
  · rw [poll_dmesg_no_tool st true dout hd]
  · rcases dout with _ | raw
    · rw [poll_dmesg_fail st true hd]
    · rw [poll_dmesg_reset st raw hd (Or.inl rfl)]

/-- A successful non-forced dmesg fetch over an unchanged non-empty window
whose last line is both the recorded tail marker and the buffer's last
line is a no-op returning `([], false)`. -/
theorem poll_dmesg_quiescent (st : DiagnosticsFeed) (raw : List String)
    {s : String} (hd : st._dmesg = some s) (hW : dmesg_window raw ≠ [])
    (ht : st._dmesg_tail = (dmesg_window raw).getLast?)
    (hbuf : st._buffer.getLast? = (dmesg_window raw).getLast?) :
    st.poll_dmesg false (some raw) = (([], false), st) := by
  obtain ⟨m, hm⟩ : ∃ m, (dmesg_window raw).getLast? = some m := by
    rcases hgl : (dmesg_window raw).getLast? with _ | m
    · exact absurd (List.getLast?_eq_none_iff.mp hgl) hW
    · exact ⟨m, rfl⟩
  have ht' : st._dmesg_tail = some m := by rw [ht, hm]
  have hf := lastIdxOf_getLast? (l := dmesg_window raw) hm
  rw [poll_dmesg_found st raw hd ht' hf]
  have hlen : (dmesg_window raw).length ≠ 0 := by
    intro h0
    exact hW (List.length_eq_zero.mp h0)
  have hdrop :
      (dmesg_window raw).drop ((dmesg_window raw).length - 1 + 1) = [] :=
    List.drop_eq_nil_of_le (by omega)
  rw [hdrop]
  have hbt : st._buffer.getLast? = st._dmesg_tail := by rw [hbuf, ht]
  congr 1
  exact feed_eta_dmesg st rfl hbt.symm

/-- A successful journal fetch in the cursor regime whose filtered output
is empty appends nothing and returns `([], false)`; only the cursor may
advance. -/
theorem poll_journalctl_quiescent (st : DiagnosticsFeed) (raw : List String)
    (dout : Option (List String)) (hct0 : strTruthy st._cursor = true)
    (hlines : filter_journal_lines raw = []) :
    st.poll_journalctl (some raw) dout = (([], false), st.updateCursor raw) := by
  have hrr : (if strTruthy st._cursor then false else st._buffer.length == 0)
      = false := by simp [hct0]
  have hct := updateCursor_truthy st raw hct0
  rw [poll_journalctl_cursor_append st raw dout hrr hct, hlines]
  congr 1
  exact feed_eta_journal (st.updateCursor raw) (updateCursor_buffer st raw)
    (updateCursor_journal_tail st raw)

/-! ### C1 -/

/-- C1: a ring-buffer (dmesg) fetch with a recorded tail marker `M` and no
forced reset, over the freshly fetched window `W2 = dmesg_window raw` of
non-blank lines: if `M` occurs in `W2` with most recent occurrence at
index `i`, the fetch returns exactly `(W2[i+1:], reset := false)` and
appends those lines to the buffer (bounded by the capacity, oldest lines
evicted first); if `M` occurs nowhere in `W2`, the fetch clears the
buffer, refills it with the last `L` lines of `W2`, sets the tail marker
to the last line of that slice, and returns
`(last L lines of W2, reset := true)`. -/
theorem C1_ring_buffer_tail_match (st : DiagnosticsFeed) (raw : List String)
    (M : String) {s : String} (hwf : st.wf) (hd : st._dmesg = some s)
    (ht : st._dmesg_tail = some M) :
    (∀ i : Nat, (dmesg_window raw)[i]? = some M →
      (∀ j : Nat, j < (dmesg_window raw).length → i < j →
        (dmesg_window raw)[j]? ≠ some M) →
      st.poll_dmesg false (some raw) =
        (((dmesg_window raw).drop (i + 1), false),
         { st with
             _buffer := lastN st.limit
               (st._buffer ++ (dmesg_window raw).drop (i + 1)),
             _dmesg_tail := (lastN st.limit
               (st._buffer ++ (dmesg_window raw).drop (i + 1))).getLast? })) ∧
    (M ∉ dmesg_window raw →
      st.poll_dmesg false (some raw) =
        ((lastN st.limit (dmesg_window raw), true),
         { st with
             _buffer := lastN st.limit (dmesg_window raw),
             _dmesg_tail :=
               (lastN st.limit (dmesg_window raw)).getLast? })) := by
  constructor
  · intro i hi hgt
    have hgt' : ∀ j : Nat, i < j → (dmesg_window raw)[j]? ≠ some M := by
      intro j hij
      by_cases hj : j < (dmesg_window raw).length
      · exact hgt j hj hij
      · rw [List.getElem?_eq_none (le_of_not_lt hj)]
        simp
    have hf := lastIdxOf_eq_some_of hi hgt'
    rw [poll_dmesg_found st raw hd ht hf, dequeExtend_eq_lastN hwf.1 hwf.2]
  · intro hmem
    have hnf := lastIdxOf_eq_none_of_not_mem hmem
    rw [poll_dmesg_notfound st raw hd ht hnf, dequeExtend_nil_buf hwf.1,
      lastN_eq_self (lastN_length_le st.limit (dmesg_window raw))]

/-- Witness for C1 at the concrete state with capacity 3, buffer
`["w1", "w2"]`, tail marker `"w2"`, and window `["w1", "w2", "w3"]`, whose
most recent occurrence of the marker is at index 1. -/
theorem C1_ring_buffer_tail_match_witness :
    (⟨3, ["w1", "w2"], some Backend.dmesg, none, some "dmesg", none, none,
        some "w2"⟩ : DiagnosticsFeed).poll_dmesg false
        (some ["w1", "w2", "w3"]) =
      (((dmesg_window ["w1", "w2", "w3"]).drop (1 + 1), false),
       { (⟨3, ["w1", "w2"], some Backend.dmesg, none, some "dmesg", none,
            none, some "w2"⟩ : DiagnosticsFeed) with
           _buffer := lastN 3
             (["w1", "w2"] ++ (dmesg_window ["w1", "w2", "w3"]).drop (1 + 1)),
           _dmesg_tail := (lastN 3
             (["w1", "w2"]
               ++ (dmesg_window ["w1", "w2", "w3"]).drop (1 + 1))).getLast? }) :=
  (C1_ring_buffer_tail_match
      (⟨3, ["w1", "w2"], some Backend.dmesg, none, some "dmesg", none, none,
        some "w2"⟩ : DiagnosticsFeed)
      ["w1", "w2", "w3"] "w2" (by constructor <;> decide) rfl rfl).1 1
    (by decide) (by decide)

/-! ### C2 -/

/-- C2 counterexample: a poll in which the active ring-buffer backend's
fetch fails (every candidate invocation raises) does NOT demote the
selection — the backend stays the ring buffer and the poll returns
`([], true)`; the claimed demotion to the next backend in priority order
(`Unavailable`) does not happen. -/
theorem C2_counterexample :
    ((DiagnosticsFeed.init 5 none (some "dmesg")).poll none
        (some ["k1", "k2"])).2._backend = some Backend.dmesg ∧
    (((DiagnosticsFeed.init 5 none (some "dmesg")).poll none
        (some ["k1", "k2"])).2.poll none none).1 = ([], true) ∧
    (((DiagnosticsFeed.init 5 none (some "dmesg")).poll none
        (some ["k1", "k2"])).2.poll none none).2._backend =
      some Backend.dmesg := by
  decide

/-- C2 (amended): a failed journal fetch with the ring-buffer tool present
demotes the selection to the ring buffer and immediately performs a
forced-reset fetch on it within the same poll (exactly one failover, the
journal tool is not retried); a failed journal fetch without the
ring-buffer tool, and a failed ring-buffer fetch, keep the current
selection, clear the buffer, and return `([], true)` — the failed backend
is retried only on a later poll, and no demotion to an `Unavailable`
selection occurs. -/
theorem C2_amended_failover (st : DiagnosticsFeed)
    (jout dout : Option (List String)) :
    ((st._backend = some Backend.journal) → (st._journalctl.isSome = true) →
      (st._dmesg.isSome = true) →
      st.poll none dout =
        DiagnosticsFeed.poll_dmesg
          { st with _backend := some Backend.dmesg, _cursor := none }
          true dout) ∧
    ((st._backend = some Backend.journal) → (st._journalctl.isSome = true) →
      st._dmesg = none →
      st.poll none dout =
        (([], true), { st with _buffer := [], _cursor := none })) ∧
    ((st._backend = some Backend.dmesg) → (st._dmesg.isSome = true) →
      st.poll jout none =
        (([], true), { st with _buffer := [], _dmesg_tail := none })) := by
  refine ⟨?_, ?_, ?_⟩
  · intro hb hj hd
    obtain ⟨s, hs⟩ := Option.isSome_iff_exists.mp hd
    rw [poll_of_backend_some st none dout hb,
      poll_selected_journal st none dout hb hj,
      poll_journalctl_fail_fallback st dout hs]
    rw [if_pos (by rw [poll_dmesg_force_reset_true]; simp)]
  · intro hb hj hd
    rw [poll_of_backend_some st none dout hb,
      poll_selected_journal st none dout hb hj,
      poll_journalctl_fail_no_dmesg st dout hd]
    rw [if_pos (by simp)]
  · intro hb hd
    obtain ⟨s, hs⟩ := Option.isSome_iff_exists.mp hd
    rw [poll_of_backend_some st jout none hb,
      poll_selected_dmesg st jout none hb hd, poll_dmesg_fail st false hs]

/-- Witness for the amended C2 at a concrete journal-backend state with
the ring-buffer tool present and a failed journal fetch. -/
theorem C2_amended_failover_witness :
    (⟨4, ["x"], some Backend.journal, some "journalctl", some "dmesg",
        some "c0", none, none⟩ : DiagnosticsFeed).poll none (some ["k1"]) =
      DiagnosticsFeed.poll_dmesg
        { (⟨4, ["x"], some Backend.journal, some "journalctl", some "dmesg",
            some "c0", none, none⟩ : DiagnosticsFeed) with
            _backend := some Backend.dmesg, _cursor := none }
        true (some ["k1"]) :=
  (C2_amended_failover
      (⟨4, ["x"], some Backend.journal, some "journalctl", some "dmesg",
        some "c0", none, none⟩ : DiagnosticsFeed)
      none (some ["k1"])).1 rfl rfl rfl

/-! ### C3 -/

/-- C3: for every feed constructed with capacity `limit` and every
sequence of polls, the snapshot length never exceeds the configured
capacity `L = max 1 limit`; moreover after any further poll the post
buffer is a suffix of the pre buffer followed by the lines that poll
returned, so chronological order is preserved and lines are only ever
evicted from the front (oldest first). -/
theorem C3_buffer_bound (limit : Nat) (journalctl dmesg : Option String)
    (inputs : List (Option (List String) × Option (List String)))
    (jout dout : Option (List String)) :
    (((DiagnosticsFeed.init limit journalctl dmesg).pollRun
        inputs).snapshot).length
      ≤ (DiagnosticsFeed.init limit journalctl dmesg).limit ∧
    (((DiagnosticsFeed.init limit journalctl dmesg).pollRun inputs).poll
        jout dout).2._buffer
      <:+ ((DiagnosticsFeed.init limit journalctl dmesg).pollRun
            inputs)._buffer
          ++ (((DiagnosticsFeed.init limit journalctl dmesg).pollRun
                inputs).poll jout dout).1.1 := by
  constructor
  · have hwf := pollRun_wf _ inputs (init_wf limit journalctl dmesg)
    have hlim := pollRun_limit (DiagnosticsFeed.init limit journalctl dmesg)
      inputs
    exact le_trans hwf.2 (le_of_eq hlim)
  · exact (pollOutcome_poll _ jout dout).2.2.2.2.2.2

/-! ### C4 -/

/-- C4: reset completeness — whenever a poll reports
`resetRequired = true`, the returned `lines` are exactly the whole
post-poll buffer (the complete intended display state), or `lines` is
empty, in which case `snapshot()` taken immediately after the poll is by
definition that complete buffer; a reset never carries a partial delta. -/
theorem C4_reset_completeness (st : DiagnosticsFeed)
    (jout dout : Option (List String))
    (h : (st.poll jout dout).1.2 = true) :
    (st.poll jout dout).1.1 = (st.poll jout dout).2.snapshot ∨
    (st.poll jout dout).1.1 = [] := by
  rcases (pollOutcome_poll st jout dout).2.2.2.1 h with h1 | h1
  · exact Or.inr h1
  · exact Or.inl h1

/-- Witness for C4 at a concrete first (reset) poll. -/
theorem C4_reset_completeness_witness :
    ((DiagnosticsFeed.init 5 (some "journalctl") none).poll
        (some ["a", "b", "-- cursor: C1"]) none).1.1 =
      ((DiagnosticsFeed.init 5 (some "journalctl") none).poll
        (some ["a", "b", "-- cursor: C1"]) none).2.snapshot ∨
    ((DiagnosticsFeed.init 5 (some "journalctl") none).poll
        (some ["a", "b", "-- cursor: C1"]) none).1.1 = [] :=
  C4_reset_completeness (DiagnosticsFeed.init 5 (some "journalctl") none)
    (some ["a", "b", "-- cursor: C1"]) none (by decide)

/-! ### C5 -/

/-- C5: Scenario A — with the journal tool present, a first poll (no
cursor) whose tool output is five log lines followed by the trailer
`-- cursor: ABC` returns exactly those five lines with `reset = true` and
sets the cursor to `ABC`; a second poll whose output is two new lines
followed by `-- cursor: XYZ` returns exactly those two lines with
`reset = false` and advances the cursor to `XYZ`; trailer and sentinel
lines never appear in the returned lines. -/
theorem C5_scenario_A :
    ((DiagnosticsFeed.init 120 (some "journalctl") none).poll
        (some ["log a", "log b", "log c", "log d", "log e",
               "-- cursor: ABC"]) none).1 =
      (["log a", "log b", "log c", "log d", "log e"], true) ∧
    ((DiagnosticsFeed.init 120 (some "journalctl") none).poll
        (some ["log a", "log b", "log c", "log d", "log e",
               "-- cursor: ABC"]) none).2._cursor = some "ABC" ∧
    (((DiagnosticsFeed.init 120 (some "journalctl") none).poll
        (some ["log a", "log b", "log c", "log d", "log e",
               "-- cursor: ABC"]) none).2.poll
        (some ["log f", "log g", "-- cursor: XYZ"]) none).1 =
      (["log f", "log g"], false) ∧
    (((DiagnosticsFeed.init 120 (some "journalctl") none).poll
        (some ["log a", "log b", "log c", "log d", "log e",
               "-- cursor: ABC"]) none).2.poll
        (some ["log f", "log g", "-- cursor: XYZ"]) none).2._cursor =
      some "XYZ" := by
  decide

/-! ### C6 -/

/-- C6 counterexample: a poll whose journal fetch is abandoned (the
invocation raises) with no ring-buffer tool available does NOT leave the
feed state as it was before the call — the buffer, previously
`["a", "b"]`, is cleared. -/
theorem C6_counterexample :
    ((DiagnosticsFeed.init 5 (some "journalctl") none).poll
        (some ["a", "b", "-- cursor: C1"]) none).2._buffer = ["a", "b"] ∧
    (((DiagnosticsFeed.init 5 (some "journalctl") none).poll
        (some ["a", "b", "-- cursor: C1"]) none).2.poll none none).2._buffer
      = [] ∧
    (((DiagnosticsFeed.init 5 (some "journalctl") none).poll
        (some ["a", "b", "-- cursor: C1"]) none).2.poll none none).2._buffer
      ≠ ((DiagnosticsFeed.init 5 (some "journalctl") none).poll
        (some ["a", "b", "-- cursor: C1"]) none).2._buffer := by
  decide

/-- C6 (amended): a poll whose active backend's fetch is abandoned
mid-flight (timeout or invocation failure) is treated as a normal
failure and never produces a partial delta: the poll reports
`resetRequired = true` and its returned lines are exactly the whole
post-poll buffer — either empty (buffer cleared, cursor or tail marker
reset) or rebuilt wholesale by the failover backend's forced-reset
fetch. The pre-poll buffer is, however, not necessarily preserved. -/
theorem C6_amended_full_reset (st : DiagnosticsFeed)
    (jout dout : Option (List String)) :
    ((st._backend = some Backend.journal) → (st._journalctl.isSome = true) →
      (st.poll none dout).1.2 = true ∧
      (st.poll none dout).1.1 = (st.poll none dout).2.snapshot) ∧
    ((st._backend = some Backend.dmesg) → (st._dmesg.isSome = true) →
      (st.poll jout none).1.2 = true ∧
      (st.poll jout none).1.1 = (st.poll jout none).2.snapshot) := by
  constructor
  · intro hb hj
    rcases hd : st._dmesg with _ | s
    · rw [poll_of_backend_some st none dout hb,
        poll_selected_journal st none dout hb hj,
        poll_journalctl_fail_no_dmesg st dout hd]
      rw [if_pos (by simp)]
      exact ⟨rfl, rfl⟩
    · rw [poll_of_backend_some st none dout hb,
        poll_selected_journal st none dout hb hj,
        poll_journalctl_fail_fallback st dout hd]
      rw [if_pos (by rw [poll_dmesg_force_reset_true]; simp)]
      exact ⟨poll_dmesg_force_reset_true _ dout,
        poll_dmesg_reset_lines_eq_buffer _ dout⟩
  · intro hb hd
    obtain ⟨s, hs⟩ := Option.isSome_iff_exists.mp hd
    rw [poll_of_backend_some st jout none hb,
      poll_selected_dmesg st jout none hb hd, poll_dmesg_fail st false hs]
    exact ⟨rfl, rfl⟩

/-- Witness for the amended C6 at a concrete journal-backend state whose
fetch fails with no ring-buffer tool available. -/
theorem C6_amended_full_reset_witness :
    ((⟨4, ["x"], some Backend.journal, some "journalctl", none, some "c0",
        none, none⟩ : DiagnosticsFeed).poll none none).1.2 = true ∧
    ((⟨4, ["x"], some Backend.journal, some "journalctl", none, some "c0",
        none, none⟩ : DiagnosticsFeed).poll none none).1.1 =
      ((⟨4, ["x"], some Backend.journal, some "journalctl", none, some "c0",
        none, none⟩ : DiagnosticsFeed).poll none none).2.snapshot :=
  (C6_amended_full_reset
      (⟨4, ["x"], some Backend.journal, some "journalctl", none, some "c0",
        none, none⟩ : DiagnosticsFeed) none none).1 rfl rfl

/-! ### C7 -/

/-- C7 counterexample: ring-buffer backend whose window is empty and
unchanged between polls. The first poll performs the initial reset
(`reset = true`); the underlying source then emits nothing, yet the two
following polls return `([], true)`, not `([], false)` as claimed. -/
theorem C7_counterexample :
    ((DiagnosticsFeed.init 5 none (some "dmesg")).poll none (some [])).1.2
      = true ∧
    (((DiagnosticsFeed.init 5 none (some "dmesg")).poll none
        (some [])).2.poll none (some [])).1 = ([], true) ∧
    (((DiagnosticsFeed.init 5 none (some "dmesg")).poll none
        (some [])).2.poll none (some [])).1 ≠ ([], false) ∧
    ((((DiagnosticsFeed.init 5 none (some "dmesg")).poll none
        (some [])).2.poll none (some [])).2.poll none (some [])).1 =
      ([], true) := by
  decide

/-- C7 (amended): after an initial reset on the selected backend, if the
source emits no new lines, two consecutive polls both return
`([], false)` — provided the fetched window is non-trivial: for the ring
buffer, the unchanged window is non-empty (so the recorded tail marker is
its last line); for the journal in the cursor regime, the fetch yields no
log lines after filtering. An empty ring-buffer window instead makes
every poll a reset returning `([], true)`. -/
theorem C7_amended_quiescence (st : DiagnosticsFeed) (raw jraw : List String)
    (jout jout2 dout dout2 : Option (List String)) :
    ((st._backend = some Backend.dmesg) → (st._dmesg.isSome = true) →
      dmesg_window raw ≠ [] →
      st._dmesg_tail = (dmesg_window raw).getLast? →
      st._buffer.getLast? = (dmesg_window raw).getLast? →
      (st.poll jout (some raw)).1 = ([], false) ∧
      ((st.poll jout (some raw)).2.poll jout2 (some raw)).1 = ([], false)) ∧
    ((st._backend = some Backend.journal) → (st._journalctl.isSome = true) →
      strTruthy st._cursor = true → filter_journal_lines jraw = [] →
      (st.poll (some jraw) dout).1 = ([], false) ∧
      ((st.poll (some jraw) dout).2.poll (some jraw) dout2).1 =
        ([], false)) := by
  constructor
  · intro hb hd hW ht hbuf
    obtain ⟨s, hs⟩ := Option.isSome_iff_exists.mp hd
    have h1 : st.poll jout (some raw) = (([], false), st) := by
      rw [poll_of_backend_some st jout (some raw) hb,
        poll_selected_dmesg st jout (some raw) hb hd,
        poll_dmesg_quiescent st raw hs hW ht hbuf]
    have h2 : (st.poll jout (some raw)).2 = st := by rw [h1]
    constructor
    · rw [h1]
    · rw [h2, poll_of_backend_some st jout2 (some raw) hb,
        poll_selected_dmesg st jout2 (some raw) hb hd,
        poll_dmesg_quiescent st raw hs hW ht hbuf]
  · intro hb hj hc hlines
    have key : ∀ (u : DiagnosticsFeed) (dt : Option (List String)),
        u._backend = some Backend.journal → u._journalctl.isSome = true →
        strTruthy u._cursor = true →
        u.poll (some jraw) dt = (([], false), u.updateCursor jraw) := by
      intro u dt hub huj huc
      rw [poll_of_backend_some u (some jraw) dt hub,
        poll_selected_journal u (some jraw) dt hub huj,
        poll_journalctl_quiescent u jraw dt huc hlines]
      rw [if_neg (show ¬((!(([] : List String), false).1.isEmpty
          || ((([] : List String), false), u.updateCursor jraw).1.2) = true)
        from by simp)]
    have h1 := key st dout hb hj hc
    constructor
    · rw [h1]
    · rw [h1]
      exact (key (st.updateCursor jraw) dout2
        (by rw [updateCursor_backend]; exact hb)
        (by rw [updateCursor_journalctl]; exact hj)
        (updateCursor_truthy st jraw hc)).symm ▸ rfl

/-- Witness for the amended C7: ring-buffer backend with the unchanged
non-empty window `["w1", "w2"]` after its initial reset; two consecutive
polls both return `([], false)`. -/
theorem C7_amended_quiescence_witness :
    ((⟨3, ["w1", "w2"], some Backend.dmesg, none, some "dmesg", none, none,
        some "w2"⟩ : DiagnosticsFeed).poll none (some ["w1", "w2"])).1 =
      ([], false) ∧
    (((⟨3, ["w1", "w2"], some Backend.dmesg, none, some "dmesg", none, none,
        some "w2"⟩ : DiagnosticsFeed).poll none (some ["w1", "w2"])).2.poll
        none (some ["w1", "w2"])).1 = ([], false) :=
  (C7_amended_quiescence
      (⟨3, ["w1", "w2"], some Backend.dmesg, none, some "dmesg", none, none,
        some "w2"⟩ : DiagnosticsFeed)
      ["w1", "w2"] [] none none none none).1 rfl rfl (by decide) (by decide)
    (by decide)

/-! ### C8 -/

/-- C8 counterexample: a journal poll with existing cursor `C1` whose
successful output `["newline1"]` contains no trailer keeps the cursor but
reports ONE new line, not zero as claimed. -/
theorem C8_counterexample :
    ((DiagnosticsFeed.init 5 (some "journalctl") none).poll
        (some ["a", "b", "-- cursor: C1"]) none).2._cursor = some "C1" ∧
    extract_cursor ["newline1"] = none ∧
    (((DiagnosticsFeed.init 5 (some "journalctl") none).poll
        (some ["a", "b", "-- cursor: C1"]) none).2.poll
        (some ["newline1"]) none).1 = (["newline1"], false) ∧
    (((DiagnosticsFeed.init 5 (some "journalctl") none).poll
        (some ["a", "b", "-- cursor: C1"]) none).2.poll
        (some ["newline1"]) none).1.1 ≠ [] := by
  decide

/-- C8 (amended): a journal-backend poll with an existing (truthy) cursor
whose successful output contains no continuation-marker trailer keeps the
existing cursor unchanged and returns the filtered output lines as an
append (`reset = false`); in particular it reports zero new lines exactly
when the output contains no log lines after filtering. -/
theorem C8_amended_keep_cursor (st : DiagnosticsFeed) (raw : List String)
    (dout : Option (List String)) (hb : st._backend = some Backend.journal)
    (hj : st._journalctl.isSome = true) (hc : strTruthy st._cursor = true)
    (hnc : extract_cursor raw = none) :
    (st.poll (some raw) dout).1 = (filter_journal_lines raw, false) ∧
    (st.poll (some raw) dout).2._cursor = st._cursor := by
  have hrr : (if strTruthy st._cursor then false else st._buffer.length == 0)
      = false := by simp [hc]
  have hct : strTruthy (st.updateCursor raw)._cursor = true := by
    rw [updateCursor_of_extract_none hnc]; exact hc
  have hju := poll_journalctl_cursor_append st raw dout hrr hct
  rw [updateCursor_of_extract_none hnc] at hju
  rw [poll_of_backend_some st (some raw) dout hb,
    poll_selected_journal st (some raw) dout hb hj, hju]
  by_cases hE : (filter_journal_lines raw).isEmpty = true
  · have hA : filter_journal_lines raw = [] := List.isEmpty_iff.mp hE
    exact ⟨by simp [hA], by simp [hA]⟩
  · have hE2 : (filter_journal_lines raw).isEmpty = false := by
      revert hE; cases (filter_journal_lines raw).isEmpty <;> simp
    exact ⟨by simp [hE2], by simp [hE2]⟩

/-- Witness for the amended C8 at a concrete journal-backend state with
cursor `C1` and trailer-free output `["newline1"]`. -/
theorem C8_amended_keep_cursor_witness :
    ((⟨5, ["a", "b"], some Backend.journal, some "journalctl", none,
        some "C1", some "b", none⟩ : DiagnosticsFeed).poll
        (some ["newline1"]) none).1 =
      (filter_journal_lines ["newline1"], false) ∧
    ((⟨5, ["a", "b"], some Backend.journal, some "journalctl", none,
        some "C1", some "b", none⟩ : DiagnosticsFeed).poll
        (some ["newline1"]) none).2._cursor = some "C1" :=
  C8_amended_keep_cursor
    (⟨5, ["a", "b"], some Backend.journal, some "journalctl", none,
      some "C1", some "b", none⟩ : DiagnosticsFeed)
    ["newline1"] none rfl rfl (by decide) (by decide)

/-! ### C9 -/

/-- C9: backend demotion is sticky — from any state whose selection is the
ring-buffer backend with the dmesg tool present (as after a demotion from
the journal backend, which requires that tool), every later sequence of
polls leaves the selection on the ring-buffer backend; the journal
backend is never re-selected. -/
theorem C9_sticky_demotion (st : DiagnosticsFeed)
    (hb : st._backend = some Backend.dmesg) (hd : st._dmesg.isSome = true)
    (inputs : List (Option (List String) × Option (List String))) :
    (st.pollRun inputs)._backend = some Backend.dmesg := by
  induction inputs generalizing st with
  | nil => exact hb
  | cons io rest ih =>
    rw [pollRun_cons]
    obtain ⟨hb2, hd2⟩ := poll_backend_dmesg_sticky st io.1 io.2 hb hd
    exact ih _ hb2 (by rw [hd2]; exact hd)

/-- Witness for C9: a demoted state (journal tool still installed) stays
on the ring-buffer backend across two further polls, one of which fails. -/
theorem C9_sticky_demotion_witness :
    ((⟨5, ["k1"], some Backend.dmesg, some "journalctl", some "dmesg", none,
        none, some "k1"⟩ : DiagnosticsFeed).pollRun
        [(none, none), (none, some ["k1", "k2"])])._backend =
      some Backend.dmesg :=
  C9_sticky_demotion
    (⟨5, ["k1"], some Backend.dmesg, some "journalctl", some "dmesg", none,
      none, some "k1"⟩ : DiagnosticsFeed) rfl rfl
    [(none, none), (none, some ["k1", "k2"])]

/-! ### C10 -/

/-- C10: append consistency — every poll that returns `(lines, false)`
leaves the buffer equal to the last `L` entries of the pre-poll buffer
concatenated with the returned lines, where `L` is the feed's capacity;
previously accepted lines are never removed or reordered except by
oldest-first eviction at capacity. -/
theorem C10_append_consistency (st : DiagnosticsFeed)
    (jout dout : Option (List String)) (hwf : st.wf)
    (h : (st.poll jout dout).1.2 = false) :
    (st.poll jout dout).2.snapshot =
      lastN st.limit (st.snapshot ++ (st.poll jout dout).1.1) := by
  have hb : (st.poll jout dout).2.snapshot =
      dequeExtend st.limit st._buffer (st.poll jout dout).1.1 :=
    (pollOutcome_poll st jout dout).2.2.2.2.1 h
  rw [hb, dequeExtend_eq_lastN hwf.1 hwf.2]
  rfl

/-- Witness for C10 at a concrete incremental (cursor-regime) poll. -/
theorem C10_append_consistency_witness :
    ((⟨5, ["a", "b"], some Backend.journal, some "journalctl", none,
        some "C1", some "b", none⟩ : DiagnosticsFeed).poll
        (some ["c", "-- cursor: C2"]) none).2.snapshot =
      lastN 5
        ((⟨5, ["a", "b"], some Backend.journal, some "journalctl", none,
            some "C1", some "b", none⟩ : DiagnosticsFeed).snapshot ++
          ((⟨5, ["a", "b"], some Backend.journal, some "journalctl", none,
              some "C1", some "b", none⟩ : DiagnosticsFeed).poll
              (some ["c", "-- cursor: C2"]) none).1.1) :=
  C10_append_consistency
    (⟨5, ["a", "b"], some Backend.journal, some "journalctl", none,
      some "C1", some "b", none⟩ : DiagnosticsFeed)
    (some ["c", "-- cursor: C2"]) none (by constructor <;> decide) (by decide)

end Diagterm
